import Mathlib

/-!
Verification development for the `rust-tdlib` multi-session worker
(`src/client/worker.rs`) and the `MessageSchedulingState` JSON type
(`src/types/message_scheduling_state.rs`).

The Rust code is shallowly embedded: the async functions are modelled as
pure functions over explicit inputs (the sequence of messages a channel
will deliver, an environment telling whether timed channel sends and
engine requests succeed), returning the trace of their observable effects
together with their `RTDResult` outcome.
-/

deriving instance DecidableEq for Except

namespace Tdlib

/-- Modelled from the spec: `ClientState` lives in the client module, which
is not among the provided sources; §3 of the spec (SessionState) and the
worker's uses fix its shape — `Opened`, `Closed`, `Error(reason)`. -/
inductive ClientState where
  | Opened : ClientState
  | Closed : ClientState
  | Error : String → ClientState
deriving DecidableEq, Repr

/-- True exactly on the `Error` variant of `ClientState`. -/
def ClientState.isError : ClientState → Bool
  | .Error _ => true
  | _ => false

/-- `RTDError` from the errors module, restricted to the variants the worker
code produces: `TdlibError` (an error string from the engine), `Internal`
(a static internal message), `Timeout` (the conversion of a channel
`SendTimeoutError`), and `RequestFailed` (a failed engine request). -/
inductive RTDError where
  | TdlibError : String → RTDError
  | Internal : String → RTDError
  | Timeout : RTDError
  | RequestFailed : RTDError
deriving DecidableEq, Repr

/-- `TdlibParameters`: the session's static handshake configuration.  The
generated type is mechanical; only its identity matters here, so it is
modelled as an opaque wrapper. -/
structure TdlibParameters where
  data : String
deriving DecidableEq, Repr

/-- Modelled from the spec: the part of `Client` (client module, not among
the provided sources) that the worker reads — the optional bound client id,
the optional updates sender (modelled by its channel id) and the session's
`tdlib_parameters`. -/
structure Client where
  client_id : Option Int
  updatesSender : Option Nat
  tdlibParameters : TdlibParameters
deriving DecidableEq, Repr

/-- Modelled from the spec: `Client::set_client_id` (the client module is not
part of the provided sources).  §3 of the spec: the id is "assigned exactly
once, before first use — assigning it twice is an error". -/
def Client.set_client_id (c : Client) (id : Int) : Except RTDError Client :=
  match c.client_id with
  | some _ => .error (.Internal "client id already set")
  | none => .ok { c with client_id := some id }

/-- A registry entry: the cloned `Client` plus the session's state-channel
sender (modelled by a channel id). -/
abbrev Entry := Client × Nat

/-- The session registry: the worker's `HashMap<ClientId, (Client, Sender)>`,
modelled as an association list with `HashMap` lookup/insert semantics. -/
abbrev Registry := List (Int × Entry)

/-- `HashMap::get`: first entry with the given key. -/
def registryLookup (m : Registry) (id : Int) : Option Entry :=
  match m with
  | [] => none
  | (k, v) :: rest => if k = id then some v else registryLookup rest id

/-- `HashMap::insert`: replaces the value if the key is present, otherwise
adds the pair.  It never fails; the previous value (if any) is discarded. -/
def registryInsert (m : Registry) (id : Int) (e : Entry) : Registry :=
  match m with
  | [] => [(id, e)]
  | (k, v) :: rest =>
      if k = id then (k, e) :: rest else (k, v) :: registryInsert rest id e

/-- Number of entries a registry holds under a given id. -/
def registryCount : Registry → Int → Nat
  | [], _ => 0
  | (k, _) :: rest, id => (if k = id then 1 else 0) + registryCount rest id

/-- Success/failure environment for the effectful operations the worker
performs: `sendOk` tells whether a `send_timeout` on a channel succeeds
within its timeout, `requestOk` whether an engine request succeeds. -/
structure AuthEnv where
  sendOk : Bool
  requestOk : Bool
deriving DecidableEq, Repr

/-- The detached monitor task spawned by `auth_client` after a first `Opened`:
its argument is the next message received on the state channel (`none` when
the channel closes with no further message), its value is what the returned
`JoinHandle` resolves to. -/
def auth_monitor : Option ClientState → ClientState
  | some ClientState.Opened => ClientState.Error "received Opened state again"
  | some state => state
  | none => ClientState.Error "auth state channel closed"

/-- `Worker::auth_client`: binds a fresh engine-assigned id to the client,
inserts it into the registry, issues the `GetApplicationConfig` liveness
probe, then dispatches on the first message of the session's state channel.
`msgs` is the sequence of messages the channel will deliver before closing.
Returns the updated registry together with the `RTDResult`: on success, the
value the returned `JoinHandle` resolves to and the bound client. -/
def auth_client (env : AuthEnv) (clients : Registry) (client : Client)
    (freshId : Int) (senderId : Nat) (msgs : List ClientState) :
    Registry × Except RTDError (ClientState × Client) :=
  match client.set_client_id freshId with
  | .error e => (clients, .error e)
  | .ok bound =>
    let clients' := registryInsert clients freshId (bound, senderId)
    if env.requestOk then
      match msgs with
      | ClientState.Closed :: _ => (clients', .ok (ClientState.Closed, bound))
      | ClientState.Error e :: _ => (clients', .error (.TdlibError e))
      | ClientState.Opened :: rest => (clients', .ok (auth_monitor rest.head?, bound))
      | [] => (clients', .ok (auth_monitor none, bound))
    else
      (clients', .error .RequestFailed)

/-- Payload of `AuthorizationStateWaitCode` (generated type, opaque here). -/
structure AuthorizationStateWaitCode where
  data : String
deriving DecidableEq, Repr

/-- Payload of `AuthorizationStateWaitEncryptionKey` (opaque). -/
structure AuthorizationStateWaitEncryptionKey where
  data : String
deriving DecidableEq, Repr

/-- Payload of `AuthorizationStateWaitOtherDeviceConfirmation`: carries the
confirmation link. -/
structure AuthorizationStateWaitOtherDeviceConfirmation where
  link : String
deriving DecidableEq, Repr

/-- Payload of `AuthorizationStateWaitPassword` (opaque). -/
structure AuthorizationStateWaitPassword where
  data : String
deriving DecidableEq, Repr

/-- Payload of `AuthorizationStateWaitPhoneNumber` (opaque). -/
structure AuthorizationStateWaitPhoneNumber where
  data : String
deriving DecidableEq, Repr

/-- Payload of `AuthorizationStateWaitRegistration` (opaque). -/
structure AuthorizationStateWaitRegistration where
  data : String
deriving DecidableEq, Repr

/-- `AuthorizationState`: the tagged union of authorization sub-states
matched by `handle_auth_state`, with the same variants as the source. -/
inductive AuthorizationState where
  | _Default : AuthorizationState
  | Closed : AuthorizationState
  | Closing : AuthorizationState
  | LoggingOut : AuthorizationState
  | Ready : AuthorizationState
  | WaitCode : AuthorizationStateWaitCode → AuthorizationState
  | WaitEncryptionKey : AuthorizationStateWaitEncryptionKey → AuthorizationState
  | WaitOtherDeviceConfirmation :
      AuthorizationStateWaitOtherDeviceConfirmation → AuthorizationState
  | WaitPassword : AuthorizationStateWaitPassword → AuthorizationState
  | WaitPhoneNumber : AuthorizationStateWaitPhoneNumber → AuthorizationState
  | WaitRegistration : AuthorizationStateWaitRegistration → AuthorizationState
  | WaitTdlibParameters : AuthorizationState
  | GetAuthorizationState : AuthorizationState
deriving DecidableEq, Repr

/-- `UpdateAuthorizationState`: carries an optional client id and the new
authorization state. -/
structure UpdateAuthorizationState where
  client_id : Option Int
  authorization_state : AuthorizationState
deriving DecidableEq, Repr

/-- The `AuthStateHandler` strategy: one value-returning method per
wait-state, modelled as pure functions of the state's payload. -/
structure AuthStateHandler where
  handle_wait_code : AuthorizationStateWaitCode → String
  handle_encryption_key : AuthorizationStateWaitEncryptionKey → String
  handle_wait_password : AuthorizationStateWaitPassword → String
  handle_wait_phone_number : AuthorizationStateWaitPhoneNumber → String
  handle_wait_registration : AuthorizationStateWaitRegistration → String × String

/-- Which `AuthStateHandler` callback an execution invoked. -/
inductive Callback where
  | otherDeviceConfirmation : String → Callback
  | waitCode : Callback
  | encryptionKey : Callback
  | waitPassword : Callback
  | waitPhoneNumber : Callback
  | waitRegistration : Callback
deriving DecidableEq, Repr

/-- An engine request submitted through the session's request surface. -/
inductive Request where
  | checkAuthenticationCode : String → Request
  | checkDatabaseEncryptionKey : String → Request
  | checkAuthenticationPassword : String → Request
  | setAuthenticationPhoneNumber : String → Request
  | registerUser : String → String → Request
  | setTdlibParameters : TdlibParameters → Request
  | getApplicationConfig : Request
deriving DecidableEq, Repr

/-- The observable effects of one `handle_auth_state` run: state-channel
send attempts, handler callbacks invoked, and engine requests submitted,
each in execution order. -/
structure Effects where
  sends : List ClientState
  callbacks : List Callback
  requests : List Request
deriving DecidableEq, Repr

/-- The empty effect trace. -/
def Effects.none : Effects := ⟨[], [], []⟩

/-- `handle_auth_state`: dispatches on the authorization state exactly as the
source match does.  Returns the effect trace together with the `RTDResult`:
a state-channel send fails with the send-timeout error when `env.sendOk` is
false, an engine request fails when `env.requestOk` is false, and in either
case the `?` operator propagates the error. -/
def handle_auth_state (env : AuthEnv) (client : Client)
    (handler : AuthStateHandler) (state : UpdateAuthorizationState) :
    Effects × Except RTDError Unit :=
  let sendRes : Except RTDError Unit :=
    if env.sendOk then .ok () else .error .Timeout
  let reqRes : Except RTDError Unit :=
    if env.requestOk then .ok () else .error .RequestFailed
  match state.authorization_state with
  | AuthorizationState._Default => (Effects.none, .ok ())
  | AuthorizationState.Closed =>
      ({ Effects.none with sends := [ClientState.Closed] }, sendRes)
  | AuthorizationState.Closing => (Effects.none, .ok ())
  | AuthorizationState.LoggingOut => (Effects.none, .ok ())
  | AuthorizationState.Ready =>
      ({ Effects.none with sends := [ClientState.Opened] }, sendRes)
  | AuthorizationState.WaitCode wait_code =>
      let code := handler.handle_wait_code wait_code
      ({ Effects.none with
          callbacks := [Callback.waitCode],
          requests := [Request.checkAuthenticationCode code] }, reqRes)
  | AuthorizationState.WaitEncryptionKey wait_encryption_key =>
      let key := handler.handle_encryption_key wait_encryption_key
      ({ Effects.none with
          callbacks := [Callback.encryptionKey],
          requests := [Request.checkDatabaseEncryptionKey key] }, reqRes)
  | AuthorizationState.WaitOtherDeviceConfirmation wait_device_confirmation =>
      ({ Effects.none with
          callbacks :=
            [Callback.otherDeviceConfirmation wait_device_confirmation.link] },
        .ok ())
  | AuthorizationState.WaitPassword wait_password =>
      let password := handler.handle_wait_password wait_password
      ({ Effects.none with
          callbacks := [Callback.waitPassword],
          requests := [Request.checkAuthenticationPassword password] }, reqRes)
  | AuthorizationState.WaitPhoneNumber wait_phone_number =>
      let phone_number := handler.handle_wait_phone_number wait_phone_number
      ({ Effects.none with
          callbacks := [Callback.waitPhoneNumber],
          requests := [Request.setAuthenticationPhoneNumber phone_number] },
        reqRes)
  | AuthorizationState.WaitRegistration wait_registration =>
      let names := handler.handle_wait_registration wait_registration
      ({ Effects.none with
          callbacks := [Callback.waitRegistration],
          requests := [Request.registerUser names.1 names.2] }, reqRes)
  | AuthorizationState.WaitTdlibParameters =>
      ({ Effects.none with
          requests := [Request.setTdlibParameters client.tdlibParameters] },
        reqRes)
  | AuthorizationState.GetAuthorizationState =>
      (Effects.none,
        .error (.Internal
          "retrieved GetAuthorizationState update but observer not found any subscriber"))

/-- An ordinary (non-authorization) `Update` as seen by the updates pump:
only its optional client id and an opaque payload matter for routing. -/
structure Update where
  client_id : Option Int
  payload : String
deriving DecidableEq, Repr

/-- One decoded-and-routed item of the updates pump's loop body, after the
`from_json` / observer steps: a decode failure, an event consumed by a
pending observer subscriber, a non-`Update` `TdType` returned by the
observer, an authorization-state update, or an ordinary update. -/
inductive PumpEvent where
  | decodeErr : String → PumpEvent
  | consumed : PumpEvent
  | nonUpdate : PumpEvent
  | authState : UpdateAuthorizationState → PumpEvent
  | other : Update → PumpEvent
deriving DecidableEq, Repr

/-- A message the updates pump forwarded: to the authorization channel, or
to a registered session's updates channel. -/
inductive Emission where
  | toAuth : UpdateAuthorizationState → Emission
  | toClient : Int → Update → Emission
deriving DecidableEq, Repr

/-- How a pump task can fail: by returning an `RTDError` (the task's
`RTDResult` is `Err`) or by panicking (`panic!` on a decode error). -/
inductive PumpFailure where
  | taskError : RTDError → PumpFailure
  | panicked : String → PumpFailure
deriving DecidableEq, Repr

/-- One iteration of `init_updates_task`'s loop body for a received event:
decode failures panic; events consumed by the observer or not `Update`s are
dropped; authorization-state updates go to the authorization channel (a
send timeout fails the task); other updates are routed by client id, where
an unknown id is logged and dropped and a known id with an updates sender
gets the update (again with fatal send timeout). -/
def updates_step (env : AuthEnv) (clients : Registry) :
    PumpEvent → Except PumpFailure (List Emission)
  | PumpEvent.decodeErr msg => .error (.panicked msg)
  | PumpEvent.consumed => .ok []
  | PumpEvent.nonUpdate => .ok []
  | PumpEvent.authState u =>
      if env.sendOk then .ok [Emission.toAuth u]
      else .error (.taskError .Timeout)
  | PumpEvent.other u =>
      match u.client_id with
      | none => .ok []
      | some cid =>
          match registryLookup clients cid with
          | none => .ok []
          | some (client, _) =>
              match client.updatesSender with
              | none => .ok []
              | some _ =>
                  if env.sendOk then .ok [Emission.toClient cid u]
                  else .error (.taskError .Timeout)

/-- The updates pump run over a finite event sequence (the registry is not
mutated by the pump itself): emissions accumulate until the first failure,
which ends the task with that failure. -/
def updates_loop (env : AuthEnv) (clients : Registry) :
    List PumpEvent → Except PumpFailure (List Emission)
  | [] => .ok []
  | e :: rest =>
      match updates_step env clients e with
      | .error f => .error f
      | .ok ems =>
          match updates_loop env clients rest with
          | .error f => .error f
          | .ok ems2 => .ok (ems ++ ems2)

/-- The outcome of awaiting a pump's `JoinHandle`: `completed r` when the
task ran to completion returning the `RTDResult` `r` (the handle's `Ok`
case, whatever `r` is), `panicked msg` when the task panicked (the handle's
`JoinError` case, stringified). -/
inductive TaskOutcome where
  | completed : Except RTDError Unit → TaskOutcome
  | panicked : String → TaskOutcome
deriving DecidableEq, Repr

/-- One arm of `start`'s `select!` (both arms are identical): a completed
task — whether its `RTDResult` is `Ok` or `Err` — matches `Ok(_)` and
yields `ClientState::Closed`; only a `JoinError` (panic) yields
`ClientState::Error(e.to_string())`. -/
def start_select : TaskOutcome → ClientState
  | TaskOutcome.completed _ => ClientState.Closed
  | TaskOutcome.panicked msg => ClientState.Error msg

/-- Converts a pump run's result into the `JoinHandle` outcome `start`'s
select awaits: a returned error is a completed task with `Err`, a panic is
a `JoinError`. -/
def pump_outcome : Except PumpFailure (List Emission) → TaskOutcome
  | .ok _ => .completed (.ok ())
  | .error (.taskError e) => .completed (.error e)
  | .error (.panicked msg) => .panicked msg

/-- What the handle returned by `Worker::start` resolves to when the updates
pump is the first task to finish, with the given run result. -/
def start_result (r : Except PumpFailure (List Emission)) : ClientState :=
  start_select (pump_outcome r)

/-- A JSON value, as `serde_json::Value` restricted to the shapes the
`MessageSchedulingState` types (strings, 64-bit integers, null, objects)
produce; serde's string encoding round-trips these shapes exactly, so
(de)serialization is modelled at the value level. -/
inductive Json where
  | null : Json
  | str : String → Json
  | int : Int → Json
  | obj : List (String × Json) → Json
deriving Repr

/-- `serde_json::Map::get`: the value of the first field with the key. -/
def jsonGet (fields : List (String × Json)) (k : String) : Option Json :=
  match fields with
  | [] => none
  | (k', v) :: rest => if k' = k then some v else jsonGet rest k

/-- `MessageSchedulingStateSendAtDate`: `@type`-renamed `td_name`,
`@extra`-renamed optional `extra`, and the scheduled `send_date` (an `i64`,
modelled as `Int`: JSON numbers round-trip `i64` exactly). -/
structure MessageSchedulingStateSendAtDate where
  td_name : String
  extra : Option String
  send_date : Int
deriving DecidableEq, Repr

/-- `MessageSchedulingStateSendWhenOnline`: only the two hidden fields. -/
structure MessageSchedulingStateSendWhenOnline where
  td_name : String
  extra : Option String
deriving DecidableEq, Repr

/-- Derived `Serialize` for `MessageSchedulingStateSendAtDate`: fields in
declaration order, with the serde renames applied and `Option` as
string-or-null. -/
def MessageSchedulingStateSendAtDate.serialize
    (s : MessageSchedulingStateSendAtDate) : Json :=
  Json.obj
    [("@type", Json.str s.td_name),
     ("@extra", match s.extra with | some e => Json.str e | none => Json.null),
     ("send_date", Json.int s.send_date)]

/-- Derived `Deserialize` for `MessageSchedulingStateSendAtDate`: `@type`
must be a string, `@extra` is an optional string (missing or null gives
`none`), `send_date` must be an integer. -/
def MessageSchedulingStateSendAtDate.deserialize (j : Json) :
    Except String MessageSchedulingStateSendAtDate :=
  match j with
  | Json.obj fields =>
      match jsonGet fields "@type" with
      | some (Json.str t) =>
          match jsonGet fields "send_date" with
          | some (Json.int d) =>
              match jsonGet fields "@extra" with
              | some (Json.str e) =>
                  .ok { td_name := t, extra := some e, send_date := d }
              | some Json.null => .ok { td_name := t, extra := none, send_date := d }
              | none => .ok { td_name := t, extra := none, send_date := d }
              | some _ => .error "invalid type for field @extra"
          | _ => .error "missing or invalid field send_date"
      | _ => .error "missing or invalid field @type"
  | _ => .error "expected an object"

/-- Derived `Deserialize` for `MessageSchedulingStateSendWhenOnline`. -/
def MessageSchedulingStateSendWhenOnline.deserialize (j : Json) :
    Except String MessageSchedulingStateSendWhenOnline :=
  match j with
  | Json.obj fields =>
      match jsonGet fields "@type" with
      | some (Json.str t) =>
          match jsonGet fields "@extra" with
          | some (Json.str e) => .ok { td_name := t, extra := some e }
          | some Json.null => .ok { td_name := t, extra := none }
          | none => .ok { td_name := t, extra := none }
          | some _ => .error "invalid type for field @extra"
      | _ => .error "missing or invalid field @type"
  | _ => .error "expected an object"

/-- `MessageSchedulingState`: the `#[serde(untagged)]` enum with its hidden
default variant and the two real variants. -/
inductive MessageSchedulingState where
  | _Default : MessageSchedulingState
  | SendAtDate : MessageSchedulingStateSendAtDate → MessageSchedulingState
  | SendWhenOnline : MessageSchedulingStateSendWhenOnline → MessageSchedulingState
deriving DecidableEq, Repr

/-- `RObject::to_json` for the untagged enum: serialize the inner value.
The hidden `_Default(())` variant serializes `()` as `null`. -/
def MessageSchedulingState.to_json : MessageSchedulingState → Json
  | MessageSchedulingState._Default => Json.null
  | MessageSchedulingState.SendAtDate t => t.serialize
  | MessageSchedulingState.SendWhenOnline t =>
      Json.obj
        [("@type", Json.str t.td_name),
         ("@extra", match t.extra with | some e => Json.str e | none => Json.null)]

/-- `MessageSchedulingState::from_json`, i.e. the `rtd_enum_deserialize!`
dispatcher: parse an object, read its `@type` string, and deserialize the
whole value into the variant named by it. -/
def MessageSchedulingState.from_json (j : Json) :
    Except String MessageSchedulingState :=
  match j with
  | Json.obj fields =>
      match jsonGet fields "@type" with
      | some (Json.str t) =>
          if t = "messageSchedulingStateSendAtDate" then
            match MessageSchedulingStateSendAtDate.deserialize j with
            | .ok v => .ok (MessageSchedulingState.SendAtDate v)
            | .error e => .error e
          else if t = "messageSchedulingStateSendWhenOnline" then
            match MessageSchedulingStateSendWhenOnline.deserialize j with
            | .ok v => .ok (MessageSchedulingState.SendWhenOnline v)
            | .error e => .error e
          else .error "invalid @type value"
      | _ => .error "missing @type field"
  | _ => .error "expected an object"

/-- The `RTDMessageSchedulingStateSendAtDateBuilder` wrapper. -/
structure RTDMessageSchedulingStateSendAtDateBuilder where
  inner : MessageSchedulingStateSendAtDate
deriving DecidableEq, Repr

/-- `MessageSchedulingStateSendAtDate::builder()`: starts from the derived
`Default` (empty `td_name`, no `extra`, `send_date` 0), sets the `@type`
tag and a fresh UUID `extra`; the UUID is random, so it is a parameter. -/
def MessageSchedulingStateSendAtDate.builder (uuid : String) :
    RTDMessageSchedulingStateSendAtDateBuilder :=
  { inner :=
      { td_name := "messageSchedulingStateSendAtDate"
        extra := some uuid
        send_date := 0 } }

/-- Builder setter for `send_date`. -/
def RTDMessageSchedulingStateSendAtDateBuilder.send_date
    (b : RTDMessageSchedulingStateSendAtDateBuilder) (d : Int) :
    RTDMessageSchedulingStateSendAtDateBuilder :=
  { inner := { b.inner with send_date := d } }

/-- `RTDMessageSchedulingStateSendAtDateBuilder::build`: clones the inner
value. -/
def RTDMessageSchedulingStateSendAtDateBuilder.build
    (b : RTDMessageSchedulingStateSendAtDateBuilder) :
    MessageSchedulingStateSendAtDate :=
  b.inner

/-- C1: for every wait-state of the §4.4 table, `handle_auth_state` invokes
the corresponding `AuthStateHandler` callback and submits exactly the
documented follow-up request with the handler-returned value; for
`WaitTdlibParameters` the request is built from the client's own
`tdlib_parameters` with no handler call; for
`WaitOtherDeviceConfirmation` the link callback is invoked and no request
is submitted. -/
theorem handle_auth_state_wait_states (env : AuthEnv) (client : Client)
    (handler : AuthStateHandler) (cid : Option Int)
    (pKey : AuthorizationStateWaitEncryptionKey)
    (pPhone : AuthorizationStateWaitPhoneNumber)
    (pReg : AuthorizationStateWaitRegistration)
    (pCode : AuthorizationStateWaitCode)
    (pPass : AuthorizationStateWaitPassword)
    (pDev : AuthorizationStateWaitOtherDeviceConfirmation) :
    handle_auth_state env client handler ⟨cid, .WaitEncryptionKey pKey⟩ =
      (⟨[], [Callback.encryptionKey],
         [Request.checkDatabaseEncryptionKey (handler.handle_encryption_key pKey)]⟩,
       if env.requestOk then .ok () else .error .RequestFailed) ∧
    handle_auth_state env client handler ⟨cid, .WaitPhoneNumber pPhone⟩ =
      (⟨[], [Callback.waitPhoneNumber],
         [Request.setAuthenticationPhoneNumber
            (handler.handle_wait_phone_number pPhone)]⟩,
       if env.requestOk then .ok () else .error .RequestFailed) ∧
    handle_auth_state env client handler ⟨cid, .WaitRegistration pReg⟩ =
      (⟨[], [Callback.waitRegistration],
         [Request.registerUser (handler.handle_wait_registration pReg).1
            (handler.handle_wait_registration pReg).2]⟩,
       if env.requestOk then .ok () else .error .RequestFailed) ∧
    handle_auth_state env client handler ⟨cid, .WaitCode pCode⟩ =
      (⟨[], [Callback.waitCode],
         [Request.checkAuthenticationCode (handler.handle_wait_code pCode)]⟩,
       if env.requestOk then .ok () else .error .RequestFailed) ∧
    handle_auth_state env client handler ⟨cid, .WaitPassword pPass⟩ =
      (⟨[], [Callback.waitPassword],
         [Request.checkAuthenticationPassword (handler.handle_wait_password pPass)]⟩,
       if env.requestOk then .ok () else .error .RequestFailed) ∧
    handle_auth_state env client handler ⟨cid, .WaitTdlibParameters⟩ =
      (⟨[], [], [Request.setTdlibParameters client.tdlibParameters]⟩,
       if env.requestOk then .ok () else .error .RequestFailed) ∧
    handle_auth_state env client handler ⟨cid, .WaitOtherDeviceConfirmation pDev⟩ =
      (⟨[], [Callback.otherDeviceConfirmation pDev.link], []⟩, .ok ()) :=
  ⟨rfl, rfl, rfl, rfl, rfl, rfl, rfl⟩

/-- C7: an authorization state not covered by the table — the
`GetAuthorizationState` variant — makes `handle_auth_state` return the
internal-protocol error, for every environment, client id and handler,
with no effect performed. -/
theorem handle_auth_state_unexpected_internal_error (env : AuthEnv)
    (client : Client) (handler : AuthStateHandler) (cid : Option Int) :
    handle_auth_state env client handler ⟨cid, .GetAuthorizationState⟩ =
      (Effects.none,
       .error (.Internal
         "retrieved GetAuthorizationState update but observer not found any subscriber")) :=
  rfl

/-- C8: the default, `Closing` and `LoggingOut` states are complete no-ops
(no state-channel send, no callback, no request, `Ok`), while `Ready`
sends exactly `Opened` and `Closed` exactly `Closed` on the state channel,
with no callback and no follow-up request in either case. -/
theorem handle_auth_state_noop_states (env : AuthEnv) (client : Client)
    (handler : AuthStateHandler) (cid : Option Int) :
    handle_auth_state env client handler ⟨cid, ._Default⟩ = (Effects.none, .ok ()) ∧
    handle_auth_state env client handler ⟨cid, .Closing⟩ = (Effects.none, .ok ()) ∧
    handle_auth_state env client handler ⟨cid, .LoggingOut⟩ = (Effects.none, .ok ()) ∧
    handle_auth_state env client handler ⟨cid, .Ready⟩ =
      (⟨[ClientState.Opened], [], []⟩,
       if env.sendOk then .ok () else .error .Timeout) ∧
    handle_auth_state env client handler ⟨cid, .Closed⟩ =
      (⟨[ClientState.Closed], [], []⟩,
       if env.sendOk then .ok () else .error .Timeout) :=
  ⟨rfl, rfl, rfl, rfl, rfl⟩

/-- C10: for every `send_date` value and builder UUID, building a
`MessageSchedulingStateSendAtDate`, serializing it with `to_json` and
parsing the result with `MessageSchedulingState::from_json` succeeds and
yields the `SendAtDate` variant with the same `send_date`. -/
theorem sendAtDate_json_roundtrip (d : Int) (uuid : String) :
    MessageSchedulingState.from_json
        (MessageSchedulingState.to_json
          (MessageSchedulingState.SendAtDate
            (((MessageSchedulingStateSendAtDate.builder uuid).send_date d).build))) =
      .ok (MessageSchedulingState.SendAtDate
            (((MessageSchedulingStateSendAtDate.builder uuid).send_date d).build)) ∧
    (((MessageSchedulingStateSendAtDate.builder uuid).send_date d).build).send_date = d :=
  ⟨rfl, rfl⟩

/-- C2: after a first `Opened`, the spawned monitor decides the terminal
handle from the next channel message: a second `Opened` resolves to
`Error("received Opened state again")`, any other state resolves to that
state, and a closed channel resolves to
`Error("auth state channel closed")`. -/
theorem auth_client_second_state_monitor (env : AuthEnv) (clients : Registry)
    (client : Client) (freshId : Int) (senderId : Nat)
    (rest : List ClientState) (hid : client.client_id = none)
    (hreq : env.requestOk = true) :
    (auth_client env clients client freshId senderId
        (ClientState.Opened :: rest)).2 =
      .ok (auth_monitor rest.head?, { client with client_id := some freshId }) ∧
    auth_monitor (some ClientState.Opened) =
      ClientState.Error "received Opened state again" ∧
    (∀ s : ClientState, s ≠ ClientState.Opened → auth_monitor (some s) = s) ∧
    auth_monitor none = ClientState.Error "auth state channel closed" := by
  refine ⟨?_, rfl, ?_, rfl⟩
  · simp [auth_client, Client.set_client_id, hid, hreq]
  · intro s hs
    cases s with
    | Opened => exact absurd rfl hs
    | Closed => rfl
    | Error e => rfl

/-- Witness for `auth_client_second_state_monitor` at a concrete session
whose channel delivers `Opened` then `Opened` again. -/
theorem auth_client_second_state_monitor_witness :
    (auth_client ⟨true, true⟩ [] ⟨none, none, ⟨"cfg"⟩⟩ 1 0
        [ClientState.Opened, ClientState.Opened]).2 =
      .ok (ClientState.Error "received Opened state again",
           ⟨some 1, none, ⟨"cfg"⟩⟩) := by
  have h := auth_client_second_state_monitor ⟨true, true⟩ [] ⟨none, none, ⟨"cfg"⟩⟩
    1 0 [ClientState.Opened] rfl rfl
  exact h.1

/-- C4: `auth_client` dispatches on the first state-channel message: a first
`Closed` returns `Ok` with a pre-resolved `Closed` handle regardless of any
later messages, a first `Error(e)` fails the call with `TdlibError(e)`
regardless of later messages, and only a first `Opened` proceeds to the
detached monitor over the remaining messages. -/
theorem auth_client_first_message (env : AuthEnv) (clients : Registry)
    (client : Client) (freshId : Int) (senderId : Nat)
    (hid : client.client_id = none) (hreq : env.requestOk = true) :
    (∀ rest : List ClientState,
      (auth_client env clients client freshId senderId
          (ClientState.Closed :: rest)).2 =
        .ok (ClientState.Closed, { client with client_id := some freshId })) ∧
    (∀ (e : String) (rest : List ClientState),
      (auth_client env clients client freshId senderId
          (ClientState.Error e :: rest)).2 =
        .error (.TdlibError e)) ∧
    (∀ rest : List ClientState,
      (auth_client env clients client freshId senderId
          (ClientState.Opened :: rest)).2 =
        .ok (auth_monitor rest.head?,
             { client with client_id := some freshId })) := by
  refine ⟨?_, ?_, ?_⟩ <;>
    intros <;> simp [auth_client, Client.set_client_id, hid, hreq]

/-- Witness for `auth_client_first_message`: concrete runs for each first
message, where the `Closed` and `Error` outcomes ignore the rest of the
channel. -/
theorem auth_client_first_message_witness :
    (auth_client ⟨true, true⟩ [] ⟨none, none, ⟨"cfg"⟩⟩ 2 0
        [ClientState.Closed, ClientState.Opened]).2 =
      .ok (ClientState.Closed, ⟨some 2, none, ⟨"cfg"⟩⟩) ∧
    (auth_client ⟨true, true⟩ [] ⟨none, none, ⟨"cfg"⟩⟩ 2 0
        [ClientState.Error "boom", ClientState.Opened]).2 =
      .error (.TdlibError "boom") := by
  have h := auth_client_first_message ⟨true, true⟩ [] ⟨none, none, ⟨"cfg"⟩⟩ 2 0
    rfl rfl
  exact ⟨h.1 [ClientState.Opened], h.2.1 "boom" [ClientState.Opened]⟩

/-- C9: a state channel that closes before delivering any message does not
fail `auth_client`: the call returns `Ok` with the bound client, and the
returned handle resolves to `Error("auth state channel closed")`. -/
theorem auth_client_closed_channel_async_error (env : AuthEnv)
    (clients : Registry) (client : Client) (freshId : Int) (senderId : Nat)
    (hid : client.client_id = none) (hreq : env.requestOk = true) :
    (auth_client env clients client freshId senderId []).2 =
      .ok (ClientState.Error "auth state channel closed",
           { client with client_id := some freshId }) := by
  simp [auth_client, Client.set_client_id, hid, hreq, auth_monitor]

/-- Witness for `auth_client_closed_channel_async_error` at a concrete
session with an immediately closed channel. -/
theorem auth_client_closed_channel_async_error_witness :
    (auth_client ⟨true, true⟩ [] ⟨none, none, ⟨"cfg"⟩⟩ 3 0 []).2 =
      .ok (ClientState.Error "auth state channel closed",
           ⟨some 3, none, ⟨"cfg"⟩⟩) :=
  auth_client_closed_channel_async_error ⟨true, true⟩ [] ⟨none, none, ⟨"cfg"⟩⟩
    3 0 rfl rfl

/-- Inserting under a key leaves the count of every other key unchanged. -/
lemma registryCount_insert_other (m : Registry) (id k : Int) (e : Entry)
    (hk : k ≠ id) :
    registryCount (registryInsert m id e) k = registryCount m k := by
  induction m with
  | nil =>
      simp only [registryInsert, registryCount]
      rw [if_neg (fun h => hk h.symm)]
  | cons hd tl ih =>
      obtain ⟨k', v⟩ := hd
      by_cases h : k' = id
      · simp [registryInsert, registryCount, h]
      · simp only [registryInsert, registryCount, if_neg h]
        rw [ih]

/-- Inserting under a key present at most once yields exactly one entry for
that key. -/
lemma registryCount_insert_self (m : Registry) (id : Int) (e : Entry)
    (h : registryCount m id ≤ 1) :
    registryCount (registryInsert m id e) id = 1 := by
  induction m with
  | nil => simp [registryInsert, registryCount]
  | cons hd tl ih =>
      obtain ⟨k', v⟩ := hd
      by_cases hk : k' = id
      · simp only [registryCount, if_pos hk] at h
        simp only [registryInsert, if_pos hk, registryCount]
        omega
      · simp only [registryCount, if_neg hk, Nat.zero_add] at h
        simp only [registryInsert, if_neg hk, registryCount]
        rw [ih h]

/-- Looking up the inserted key finds the inserted entry. -/
lemma registryLookup_insert (m : Registry) (id : Int) (e : Entry) :
    registryLookup (registryInsert m id e) id = some e := by
  induction m with
  | nil => simp [registryInsert, registryLookup]
  | cons hd tl ih =>
      obtain ⟨k', v⟩ := hd
      by_cases hk : k' = id
      · simp [registryInsert, registryLookup, hk]
      · simp only [registryInsert, if_neg hk, registryLookup]
        exact ih

/-- C5 counterexample: with session id 1 already present in the registry,
registration through `auth_client` under the same id does not fail — it
succeeds, and the `HashMap::insert` silently replaces the old entry. -/
theorem duplicate_register_succeeds :
    (auth_client ⟨true, true⟩ [(1, (⟨some 1, none, ⟨"old"⟩⟩, 5))]
        ⟨none, none, ⟨"new"⟩⟩ 1 0 [ClientState.Opened, ClientState.Closed]).2 =
      .ok (ClientState.Closed, ⟨some 1, none, ⟨"new"⟩⟩) ∧
    (auth_client ⟨true, true⟩ [(1, (⟨some 1, none, ⟨"old"⟩⟩, 5))]
        ⟨none, none, ⟨"new"⟩⟩ 1 0 [ClientState.Opened, ClientState.Closed]).1 =
      [(1, (⟨some 1, none, ⟨"new"⟩⟩, 0))] :=
  ⟨rfl, rfl⟩

/-- C5 (amended): duplicate registration does not fail; the insert replaces
any existing entry under the id, so the registry keeps at most one entry
per session id, the id maps to the newly inserted entry, and
`auth_client`'s registry update is exactly this insert. -/
theorem registry_at_most_one_entry (m : Registry) (id : Int) (e : Entry)
    (h : ∀ k, registryCount m k ≤ 1) :
    (∀ k, registryCount (registryInsert m id e) k ≤ 1) ∧
    registryLookup (registryInsert m id e) id = some e ∧
    (∀ (env : AuthEnv) (client : Client) (senderId : Nat)
        (msgs : List ClientState), client.client_id = none →
      (auth_client env m client id senderId msgs).1 =
        registryInsert m id ({ client with client_id := some id }, senderId)) := by
  refine ⟨?_, registryLookup_insert m id e, ?_⟩
  · intro k
    by_cases hk : k = id
    · subst hk
      rw [registryCount_insert_self m k e (h k)]
    · rw [registryCount_insert_other m id k e hk]
      exact h k
  · intro env client senderId msgs hid
    simp only [auth_client, Client.set_client_id, hid]
    cases hr : env.requestOk <;> cases msgs with
      | nil => simp
      | cons first rest => cases first <;> simp

/-- Witness for `registry_at_most_one_entry` on a registry already holding
id 1: after inserting a new entry under id 1 the count is still one and the
lookup finds the new entry. -/
theorem registry_at_most_one_entry_witness :
    registryCount (registryInsert [(1, (⟨some 1, none, ⟨"old"⟩⟩, 5))] 1
        (⟨some 1, none, ⟨"new"⟩⟩, 0)) 1 ≤ 1 ∧
    registryLookup (registryInsert [(1, (⟨some 1, none, ⟨"old"⟩⟩, 5))] 1
        (⟨some 1, none, ⟨"new"⟩⟩, 0)) 1 =
      some (⟨some 1, none, ⟨"new"⟩⟩, 0) := by
  have h := registry_at_most_one_entry [(1, (⟨some 1, none, ⟨"old"⟩⟩, 5))] 1
    (⟨some 1, none, ⟨"new"⟩⟩, 0)
    (by
      intro k
      simp only [registryCount]
      split <;> simp)
  exact ⟨h.1 1, h.2.1⟩

/-- C3 counterexample: a channel send timeout makes the updates pump task
fail (its `RTDResult` is `Err`), yet `start`'s select matches the completed
task with `Ok(_)` and resolves the worker handle to `Closed`, not to an
`Error` terminal state. -/
theorem pump_error_resolves_closed :
    updates_loop ⟨false, true⟩ [(1, (⟨some 1, some 0, ⟨"cfg"⟩⟩, 7))]
        [PumpEvent.other ⟨some 1, "u"⟩] =
      .error (.taskError .Timeout) ∧
    start_result (.error (.taskError .Timeout)) = ClientState.Closed ∧
    (start_result (.error (.taskError .Timeout))).isError = false :=
  ⟨rfl, rfl, rfl⟩

/-- C3 (amended): only a pump panic (the decode-error path) resolves the
`start` handle to an `Error` terminal state carrying the failure; a pump
task that terminates by returning an error — e.g. a channel send timeout —
is a completed task, matches the select's `Ok(_)` arm, and resolves the
handle to `Closed`, the same as normal completion. -/
theorem start_failure_propagation :
    (∀ msg, start_select (TaskOutcome.panicked msg) = ClientState.Error msg) ∧
    (∀ r, start_select (TaskOutcome.completed r) = ClientState.Closed) ∧
    (∀ (env : AuthEnv) (clients : Registry) (events : List PumpEvent) (msg : String),
      updates_loop env clients events = .error (.panicked msg) →
      start_result (updates_loop env clients events) = ClientState.Error msg) ∧
    (∀ (env : AuthEnv) (clients : Registry) (events : List PumpEvent) (e : RTDError),
      updates_loop env clients events = .error (.taskError e) →
      start_result (updates_loop env clients events) = ClientState.Closed) := by
  refine ⟨fun _ => rfl, fun _ => rfl, ?_, ?_⟩
  · intro env clients events msg h
    rw [start_result, h]
    rfl
  · intro env clients events e h
    rw [start_result, h]
    rfl

/-- Witness for `start_failure_propagation`: a pump panic resolves to
`Error`, while a concrete send-timeout run resolves to `Closed`. -/
theorem start_failure_propagation_witness :
    start_select (TaskOutcome.panicked "boom") = ClientState.Error "boom" ∧
    start_result (updates_loop ⟨false, true⟩ [(1, (⟨some 1, some 0, ⟨"cfg"⟩⟩, 7))]
        [PumpEvent.other ⟨some 1, "u"⟩]) = ClientState.Closed :=
  ⟨start_failure_propagation.1 "boom",
   start_failure_propagation.2.2.2 ⟨false, true⟩
     [(1, (⟨some 1, some 0, ⟨"cfg"⟩⟩, 7))] [PumpEvent.other ⟨some 1, "u"⟩]
     .Timeout rfl⟩

/-- C6: an update addressed to an unregistered session id is dropped without
failing the pump: the step yields no send and `Ok`, it leaves the rest of
the loop unchanged, and a subsequent update for a registered id with an
updates sender is still forwarded to it. -/
theorem unknown_id_dropped (env : AuthEnv) (clients : Registry) (u : Update)
    (cid : Int) (rest : List PumpEvent)
    (hu : u.client_id = some cid) (hl : registryLookup clients cid = none) :
    updates_step env clients (PumpEvent.other u) = .ok [] ∧
    updates_loop env clients (PumpEvent.other u :: rest) =
      updates_loop env clients rest ∧
    (∀ (u2 : Update) (cid2 : Int) (c2 : Client) (s2 : Nat) (snd : Nat),
      u2.client_id = some cid2 →
      registryLookup clients cid2 = some (c2, s2) →
      c2.updatesSender = some snd → env.sendOk = true →
      updates_loop env clients [PumpEvent.other u, PumpEvent.other u2] =
        .ok [Emission.toClient cid2 u2]) := by
  have hstep : updates_step env clients (PumpEvent.other u) = .ok [] := by
    simp [updates_step, hu, hl]
  refine ⟨hstep, ?_, ?_⟩
  · rw [updates_loop, hstep]
    cases h2 : updates_loop env clients rest <;> simp
  · intro u2 cid2 c2 s2 snd hu2 hl2 hs2 hsend
    have hstep2 :
        updates_step env clients (PumpEvent.other u2) =
          .ok [Emission.toClient cid2 u2] := by
      simp [updates_step, hu2, hl2, hs2, hsend]
    rw [updates_loop, hstep, updates_loop, hstep2, updates_loop]
    rfl

/-- Witness for `unknown_id_dropped`: an update for the never-registered id
1 is dropped while the following update for the registered id 2 is still
delivered. -/
theorem unknown_id_dropped_witness :
    updates_step ⟨true, true⟩ [(2, (⟨some 2, some 0, ⟨"cfg"⟩⟩, 7))]
        (PumpEvent.other ⟨some 1, "a"⟩) = .ok [] ∧
    updates_loop ⟨true, true⟩ [(2, (⟨some 2, some 0, ⟨"cfg"⟩⟩, 7))]
        [PumpEvent.other ⟨some 1, "a"⟩, PumpEvent.other ⟨some 2, "b"⟩] =
      .ok [Emission.toClient 2 ⟨some 2, "b"⟩] := by
  have h := unknown_id_dropped ⟨true, true⟩ [(2, (⟨some 2, some 0, ⟨"cfg"⟩⟩, 7))]
    ⟨some 1, "a"⟩ 1 [PumpEvent.other ⟨some 2, "b"⟩] rfl (by simp [registryLookup])
  exact ⟨h.1, h.2.2 ⟨some 2, "b"⟩ 2 ⟨some 2, some 0, ⟨"cfg"⟩⟩ 7 0 rfl
    (by simp [registryLookup]) rfl rfl⟩

end Tdlib
